import Mathlib

/-!
Verification of the form-validation state container of the fxa repository
(`fxa-payments-server` Validator and field bindings) and of the auth server's
security-event recorder (`fxa-auth-server/lib/routes/utils/security-event.ts`).

The Validator implementation (`src/lib/validator` and `src/components/fields`)
is not present in the provided sources; only its test suite
(`src/components/fields.test.tsx`) is.  The definitions below are therefore
modelled from the specification document, with the concrete constants (field
type strings, error message texts) pinned by the expectations asserted in
`fields.test.tsx`.  The security-event recorder is embedded directly from its
TypeScript source.
-/

/-- Modelled from the spec: the `error` object carried by a payment-element
(stripe) change payload; the missing source is
`fxa-payments-server/src/components/fields.tsx` (`StripeElement`).  Only the
`message` text is consulted by the binding. -/
structure StripeError where
  message : String
  deriving DecidableEq, Repr

/-- Modelled from the spec: the opaque structured result `{complete?, error?}`
supplied by the external payment element's callback (spec section 4.3); the
missing source is `fxa-payments-server/src/components/fields.tsx`.  An absent
`complete` behaves like `false`, and a `null` error like an absent one, so both
are folded into `complete : Bool` and `error : Option StripeError`. -/
structure StripePayload where
  complete : Bool
  error : Option StripeError
  deriving DecidableEq, Repr

/-- Modelled from the spec: the `value` slot of a FieldRecord is an arbitrary
payload (string, boolean, or structured payment-element result), `null` right
after registration; the missing source is
`fxa-payments-server/src/lib/validator`. -/
inductive FieldValue where
  | null
  | str (s : String)
  | bool (b : Bool)
  | stripe (p : StripePayload)
  deriving DecidableEq, Repr

/-- Modelled from the spec: one FieldRecord per registered input (spec
section 3); the missing source is `fxa-payments-server/src/lib/validator`.
`valid` is the tri-state {true, false, unknown}, embedded as `Option Bool`
with `none` for the `null`/unknown verdict; `error` is the optional
human-readable message.  `fieldType` is kept as the string the bindings pass
(the test suite pins the values "input" and "stripe"). -/
structure FieldRecord where
  fieldType : String
  required : Bool
  value : FieldValue
  valid : Option Bool
  error : Option String
  deriving DecidableEq, Repr

/-- Modelled from the spec: the ValidatorState, a mapping from field name to
FieldRecord plus a top-level error (spec section 3); the missing source is
`fxa-payments-server/src/lib/validator`.  The mapping is embedded as an
association list in registration order; lookup returns the first binding. -/
structure ValidatorState where
  error : Option String
  fields : List (String × FieldRecord)
  deriving DecidableEq, Repr

/-- First-match lookup in the field association list. -/
def lookupField (fields : List (String × FieldRecord)) (name : String) :
    Option FieldRecord :=
  match fields with
  | [] => none
  | (n, r) :: rest => if n = name then some r else lookupField rest name

/-- Replace every binding of `name` in the list by the record `r` (the
spread-update `{...fields, [name]: r}` of the JS fields object). -/
def setField (fields : List (String × FieldRecord)) (name : String)
    (r : FieldRecord) : List (String × FieldRecord) :=
  match fields with
  | [] => []
  | (n, r0) :: rest =>
    (if n = name then (name, r) else (n, r0)) :: setField rest name r

/-- Modelled from the spec: the initial ValidatorState, no fields and no
top-level error (asserted by the `Form` test in `fields.test.tsx`); the
missing source is `fxa-payments-server/src/lib/validator`. -/
def initialState : ValidatorState := { error := none, fields := [] }

/-- Modelled from the spec: `registerField(name, fieldType, required)` inserts
a FieldRecord with `value=null, valid=unknown, error=null` if not already
present, and is a no-op for an already-registered name (spec section 4.1);
the missing source is `fxa-payments-server/src/lib/validator`. -/
def ValidatorState.registerField (s : ValidatorState)
    (name fieldType : String) (required : Bool) : ValidatorState :=
  match lookupField s.fields name with
  | some _ => s
  | none =>
    { s with
      fields := s.fields ++
        [(name,
          { fieldType := fieldType, required := required,
            value := FieldValue.null, valid := none, error := none })] }

/-- Modelled from the spec: `updateField(name, value, valid, error)` replaces
the named FieldRecord's `value`, `valid` and `error`; an update referencing an
unregistered field name is ignored (spec sections 4.1 and 7); the missing
source is `fxa-payments-server/src/lib/validator`. -/
def ValidatorState.updateField (s : ValidatorState) (name : String)
    (v : FieldValue) (valid : Option Bool) (error : Option String) :
    ValidatorState :=
  match lookupField s.fields name with
  | none => s
  | some r =>
    { s with
      fields := setField s.fields name
        { r with value := v, valid := valid, error := error } }

/-- Modelled from the spec: `reset()` returns all fields to their
post-registration default state (spec section 4.1); the missing source is
`fxa-payments-server/src/lib/validator`. -/
def ValidatorState.resetAll (s : ValidatorState) : ValidatorState :=
  { error := none,
    fields := s.fields.map
      (fun p =>
        (p.1,
         { p.2 with value := FieldValue.null, valid := none, error := none })) }

/-- Modelled from the spec: the submit gate is enabled iff every `required`
FieldRecord has `valid === true` (spec section 4.4); the missing source is
`fxa-payments-server/src/components/fields.tsx` (`SubmitButton`). -/
def submitEnabled (s : ValidatorState) : Bool :=
  s.fields.all (fun p => !p.2.required || (p.2.valid == some true))

/-- The standard required-field message asserted by `fields.test.tsx`. -/
def requiredError : String := "This field is required"

/-- JS `String.prototype.trim`: drop whitespace from both ends, written by
structural recursion over the character list so it evaluates in the kernel. -/
def jsTrim (s : String) : String :=
  String.mk
    (((s.data.dropWhile Char.isWhitespace).reverse.dropWhile
        Char.isWhitespace).reverse)

/-- Modelled from the spec: default validation policy of the Input binding
when no `onValidate` callback is supplied — a required field is valid iff its
trimmed value is non-empty, an optional field is always valid (spec
section 4.3); the missing source is
`fxa-payments-server/src/components/fields.tsx` (`Input`). -/
def inputValidateDefault (required : Bool) (value : String) :
    Option Bool × Option String :=
  if required && (jsTrim value == "") then (some false, some requiredError)
  else (some true, none)

/-- Modelled from the spec: the Input binding registers its field with
fieldType "input" (pinned by `fields.test.tsx`); the missing source is
`fxa-payments-server/src/components/fields.tsx` (`Input`). -/
def inputRegister (s : ValidatorState) (name : String) (required : Bool) :
    ValidatorState :=
  s.registerField name "input" required

/-- Modelled from the spec: on a change event the Input binding (without
`onValidate`) validates the new value and dispatches `updateField`; the
missing source is `fxa-payments-server/src/components/fields.tsx` (`Input`). -/
def inputChange (s : ValidatorState) (name : String) (required : Bool)
    (value : String) : ValidatorState :=
  let vr := inputValidateDefault required value
  s.updateField name (FieldValue.str value) vr.1 vr.2

/-- Modelled from the spec: the Input binding re-validates on blur with the
control's current value, surfacing the required-and-empty failure (spec
section 4.3); the missing source is
`fxa-payments-server/src/components/fields.tsx` (`Input`). -/
def inputBlur (s : ValidatorState) (name : String) (required : Bool)
    (value : String) : ValidatorState :=
  inputChange s name required value

/-- Modelled from the spec: the Checkbox binding registers its field with
fieldType "input" (pinned by the Checkbox test in `fields.test.tsx`); the
missing source is `fxa-payments-server/src/components/fields.tsx`
(`Checkbox`). -/
def checkboxRegister (s : ValidatorState) (name : String) (required : Bool) :
    ValidatorState :=
  s.registerField name "input" required

/-- Modelled from the spec: on every toggle the Checkbox binding stores the
boolean checked state and recomputes validity — required means the checked
state must be `true` to be valid (spec section 4.3); the missing source is
`fxa-payments-server/src/components/fields.tsx` (`Checkbox`). -/
def checkboxChange (s : ValidatorState) (name : String)
    (required checked : Bool) : ValidatorState :=
  s.updateField name (FieldValue.bool checked) (some (!required || checked))
    none

/-- JS `s.endsWith('.')`, written over the character list so it evaluates in
the kernel. -/
def endsWithPeriod (s : String) : Bool :=
  match s.data.getLast? with
  | some c => c == '.'
  | none => false

/-- JS `s.slice(0, -1)`: drop the last character. -/
def dropLastChar (s : String) : String :=
  String.mk s.data.dropLast

/-- Cosmetic normalization of payment-element error messages: a single
trailing period is stripped when present (spec section 4.3, and the
trailing-period test in `fields.test.tsx`). -/
def stripTrailingPeriod (msg : String) : String :=
  if endsWithPeriod msg then dropLastChar msg else msg

/-- Modelled from the spec: the payment-element binding registers its field
with fieldType "stripe" (pinned by the StripeElement tests in
`fields.test.tsx`); the missing source is
`fxa-payments-server/src/components/fields.tsx` (`StripeElement`). -/
def stripeRegister (s : ValidatorState) (name : String) (required : Bool) :
    ValidatorState :=
  s.registerField name "stripe" required

/-- Modelled from the spec: default change policy of the payment-element
binding (spec section 4.3) — a `null`/`undefined` payload dispatches nothing;
a payload carrying an `error.message` makes the field invalid with the
normalized message; `complete=true` with no error makes it valid with the
error cleared; `complete` false/absent with no error dispatches nothing; the
missing source is `fxa-payments-server/src/components/fields.tsx`
(`StripeElement`). -/
def stripeChange (s : ValidatorState) (name : String)
    (payload : Option StripePayload) : ValidatorState :=
  match payload with
  | none => s
  | some p =>
    match p.error with
    | some e =>
      s.updateField name (FieldValue.stripe p) (some false)
        (some (stripTrailingPeriod e.message))
    | none =>
      if p.complete then
        s.updateField name (FieldValue.stripe p) (some true) none
      else s

/-- Modelled from the spec: on blur with no value yet supplied and
`required=true`, the payment-element binding synthesizes a required-field
failure using the field's label (spec section 4.3); the missing source is
`fxa-payments-server/src/components/fields.tsx` (`StripeElement`). -/
def stripeBlur (s : ValidatorState) (name : String) (required : Bool)
    (label : String) : ValidatorState :=
  if required then
    match lookupField s.fields name with
    | some r =>
      if r.value = FieldValue.null then
        s.updateField name FieldValue.null (some false)
          (some (label ++ " is required"))
      else s
    | none => s
  else s

/-- Modelled from the spec: the user-interaction and dispatch events the
bindings translate into validator actions (spec section 2); `rawUpdate`
covers a direct `updateField` dispatch as performed by the test harness's
`TestValidatorFn`. -/
inductive FormEvent where
  | inputRegister (name : String) (required : Bool)
  | inputChange (name : String) (required : Bool) (value : String)
  | inputBlur (name : String) (required : Bool) (value : String)
  | checkboxRegister (name : String) (required : Bool)
  | checkboxChange (name : String) (required checked : Bool)
  | stripeRegister (name : String) (required : Bool)
  | stripeChange (name : String) (payload : Option StripePayload)
  | stripeBlur (name : String) (required : Bool) (label : String)
  | rawUpdate (name : String) (value : FieldValue) (valid : Option Bool)
      (error : Option String)
  | resetAll
  deriving Repr

/-- Dispatch one event against the validator state. -/
def applyEvent (s : ValidatorState) (e : FormEvent) : ValidatorState :=
  match e with
  | .inputRegister name required => inputRegister s name required
  | .inputChange name required value => inputChange s name required value
  | .inputBlur name required value => inputBlur s name required value
  | .checkboxRegister name required => checkboxRegister s name required
  | .checkboxChange name required checked =>
      checkboxChange s name required checked
  | .stripeRegister name required => stripeRegister s name required
  | .stripeChange name payload => stripeChange s name payload
  | .stripeBlur name required label => stripeBlur s name required label
  | .rawUpdate name v valid error => s.updateField name v valid error
  | .resetAll => s.resetAll

/-- Run a sequence of events from a starting state. -/
def runEvents (s : ValidatorState) (evs : List FormEvent) : ValidatorState :=
  evs.foldl applyEvent s

/-- The `geo` object of `request.app`; `location` may be absent.
(From `fxa-auth-server/lib/routes/utils/security-event.ts` usage.) -/
structure Geo where
  location : Option String
  deriving DecidableEq, Repr

/-- The `app` object of a request: `clientAddress` and `geo` may be absent. -/
structure ReqApp where
  clientAddress : Option String
  geo : Option Geo
  deriving DecidableEq, Repr

/-- The `credentials` object of `request.auth`. -/
structure Credentials where
  uid : Option String
  id : Option String
  deriving DecidableEq, Repr

/-- The `auth` object of a request. -/
structure ReqAuth where
  credentials : Option Credentials
  deriving DecidableEq, Repr

/-- A request as dereferenced by `recordSecurityEvent`: `headers` is a string
map (absent headers model a missing `headers` object), `app` and `auth` may
be absent. -/
structure Request where
  headers : Option (List (String × String))
  app : Option ReqApp
  auth : Option ReqAuth
  deriving DecidableEq, Repr

/-- The `account` object possibly carried by `opts`. -/
structure Account where
  uid : Option String
  deriving DecidableEq, Repr

/-- The `opts` argument of `recordSecurityEvent`: `db` is treated as an opaque
handle (`Option String`), `account` and `request` may be absent.  A `null` or
`undefined` `opts` itself is modelled by `Option SecOpts` at the call. -/
structure SecOpts where
  db : Option String
  account : Option Account
  request : Option Request
  deriving DecidableEq, Repr

/-- The container-provided `AccountEventsManager`: `Option Manager = none`
models `Container.get` yielding `null`; `hasRecordSecurityEventFn` models
`typeof mgr.recordSecurityEvent === 'function'`. -/
structure Manager where
  hasRecordSecurityEventFn : Bool
  deriving DecidableEq, Repr

/-- A JavaScript runtime error raised while evaluating the call's arguments
(dereferencing a property of `undefined`). -/
inductive JsError where
  | typeError
  deriving DecidableEq, Repr

/-- The row passed to the manager's `recordSecurityEvent` method. -/
structure SecurityEventRow where
  db : Option String
  name : String
  uid : Option String
  ipAddr : Option String
  tokenId : Option String
  userAgent : Option String
  location : Option String
  deriving DecidableEq, Repr

/-- Outcome of a `recordSecurityEvent` call: either the guard returned early
without invoking the manager, or the manager's method was invoked with a row. -/
inductive CallResult where
  | skipped
  | recorded (row : SecurityEventRow)
  deriving DecidableEq, Repr

/-- JS `a || b` on possibly-absent strings: the empty string is falsy. -/
def jsOr (a b : Option String) : Option String :=
  match a with
  | some s => if s = "" then b else some s
  | none => b

/-- `typeof mgr.recordSecurityEvent === 'function'` after the null check:
the manager exists and has the method. -/
def managerUsable (mgr : Option Manager) : Bool :=
  match mgr with
  | none => false
  | some m => m.hasRecordSecurityEventFn

/-- `recordSecurityEvent(name, opts)` from
`fxa-auth-server/lib/routes/utils/security-event.ts`: return early when the
container-provided manager is `null` or lacks a `recordSecurityEvent`
function; otherwise evaluate the call's arguments in JS order — `opts.db`
(throws on nullish `opts`), then the fully optional-chained `uid`, `ipAddr`
and `tokenId`, then `opts?.request.headers['user-agent']` and
`opts?.request.app.geo.location`, whose unguarded member accesses throw a
TypeError when `request`, `headers`, `app` or `geo` is absent — and invoke
the manager's method with the resulting row. -/
def recordSecurityEvent (mgr : Option Manager) (name : String)
    (opts : Option SecOpts) : Except JsError CallResult :=
  match mgr with
  | none => Except.ok CallResult.skipped
  | some m =>
    if m.hasRecordSecurityEventFn = false then Except.ok CallResult.skipped
    else
      match opts with
      | none => Except.error JsError.typeError
      | some o =>
        let uid := jsOr (o.account.bind Account.uid)
          (((o.request.bind Request.auth).bind ReqAuth.credentials).bind
            Credentials.uid)
        let ipAddr := (o.request.bind Request.app).bind ReqApp.clientAddress
        let tokenId :=
          ((o.request.bind Request.auth).bind ReqAuth.credentials).bind
            Credentials.id
        match o.request with
        | none => Except.error JsError.typeError
        | some r =>
          match r.headers with
          | none => Except.error JsError.typeError
          | some hs =>
            let userAgent := (hs.find? (fun p => p.1 == "user-agent")).map
              Prod.snd
            match r.app with
            | none => Except.error JsError.typeError
            | some a =>
              match a.geo with
              | none => Except.error JsError.typeError
              | some g =>
                Except.ok (CallResult.recorded
                  { db := o.db, name := name, uid := uid, ipAddr := ipAddr,
                    tokenId := tokenId, userAgent := userAgent,
                    location := g.location })

/-- Every FieldRecord in the state has one of the field type strings the
bindings actually pass. -/
def FieldTypesOk (s : ValidatorState) : Prop :=
  ∀ p ∈ s.fields, p.2.fieldType = "input" ∨ p.2.fieldType = "stripe"

theorem lookupField_append_self (fields : List (String × FieldRecord))
    (name : String) (r : FieldRecord) (h : lookupField fields name = none) :
    lookupField (fields ++ [(name, r)]) name = some r := by
  induction fields with
  | nil => simp [lookupField]
  | cons p rest ih =>
    obtain ⟨n, r0⟩ := p
    simp only [lookupField, List.cons_append] at h ⊢
    by_cases hn : n = name
    · simp [hn] at h
    · simp only [if_neg hn] at h ⊢
      exact ih h

theorem lookupField_append_other (fields : List (String × FieldRecord))
    (name m : String) (r : FieldRecord) (hm : m ≠ name) :
    lookupField (fields ++ [(name, r)]) m = lookupField fields m := by
  induction fields with
  | nil => simp [lookupField, Ne.symm hm]
  | cons p rest ih =>
    obtain ⟨n, r0⟩ := p
    simp only [lookupField, List.cons_append]
    by_cases hn : n = m
    · simp [hn]
    · simp only [if_neg hn]
      exact ih

theorem lookupField_mem (fields : List (String × FieldRecord))
    (name : String) (r : FieldRecord) (h : lookupField fields name = some r) :
    (name, r) ∈ fields := by
  induction fields with
  | nil => simp [lookupField] at h
  | cons p rest ih =>
    obtain ⟨n, r0⟩ := p
    simp only [lookupField] at h
    by_cases hn : n = name
    · rw [if_pos hn] at h
      rw [Option.some_inj] at h
      rw [← hn, ← h]
      exact List.mem_cons_self _ _
    · rw [if_neg hn] at h
      exact List.mem_cons_of_mem _ (ih h)

theorem lookupField_setField_self (fields : List (String × FieldRecord))
    (name : String) (r0 r : FieldRecord)
    (h : lookupField fields name = some r0) :
    lookupField (setField fields name r) name = some r := by
  induction fields with
  | nil => simp [lookupField] at h
  | cons p rest ih =>
    obtain ⟨n, r1⟩ := p
    simp only [lookupField] at h
    simp only [setField]
    by_cases hn : n = name
    · rw [if_pos hn]
      simp [lookupField]
    · rw [if_neg hn] at h
      rw [if_neg hn]
      simp only [lookupField, if_neg hn]
      exact ih h

theorem lookupField_setField_other (fields : List (String × FieldRecord))
    (name m : String) (r : FieldRecord) (hm : m ≠ name) :
    lookupField (setField fields name r) m = lookupField fields m := by
  induction fields with
  | nil => simp [lookupField, setField]
  | cons p rest ih =>
    obtain ⟨n, r0⟩ := p
    simp only [setField]
    by_cases hn : n = name
    · rw [if_pos hn]
      have hnm : n ≠ m := by rw [hn]; exact Ne.symm hm
      simp only [lookupField, if_neg (Ne.symm hm), if_neg hnm]
      exact ih
    · rw [if_neg hn]
      simp only [lookupField]
      by_cases hnm : n = m
      · rw [if_pos hnm, if_pos hnm]
      · rw [if_neg hnm, if_neg hnm]
        exact ih

theorem mem_setField_self (fields : List (String × FieldRecord))
    (name : String) (r0 r : FieldRecord)
    (h : lookupField fields name = some r0) :
    (name, r) ∈ setField fields name r := by
  induction fields with
  | nil => simp [lookupField] at h
  | cons p rest ih =>
    obtain ⟨n, r1⟩ := p
    simp only [lookupField] at h
    simp only [setField]
    by_cases hn : n = name
    · rw [if_pos hn]
      exact List.mem_cons_self _ _
    · rw [if_neg hn] at h
      rw [if_neg hn]
      exact List.mem_cons_of_mem _ (ih h)

theorem mem_setField_elim (fields : List (String × FieldRecord))
    (name : String) (r : FieldRecord) (p : String × FieldRecord)
    (hp : p ∈ setField fields name r) :
    p = (name, r) ∨ (p ∈ fields ∧ p.1 ≠ name) := by
  induction fields with
  | nil => simp [setField] at hp
  | cons q rest ih =>
    obtain ⟨n, r0⟩ := q
    simp only [setField] at hp
    rcases List.mem_cons.mp hp with hhead | htail
    · by_cases hn : n = name
      · left
        rw [if_pos hn] at hhead
        exact hhead
      · right
        rw [if_neg hn] at hhead
        rw [hhead]
        exact ⟨List.mem_cons_self _ _, hn⟩
    · rcases ih htail with h1 | ⟨h2, h3⟩
      · left
        exact h1
      · right
        exact ⟨List.mem_cons_of_mem _ h2, h3⟩

theorem fieldTypesOk_updateField (s : ValidatorState) (name : String)
    (v : FieldValue) (valid : Option Bool) (error : Option String)
    (hs : FieldTypesOk s) :
    FieldTypesOk (s.updateField name v valid error) := by
  unfold ValidatorState.updateField
  cases hl : lookupField s.fields name with
  | none => exact hs
  | some r =>
    intro p hp
    rcases mem_setField_elim _ _ _ _ hp with h1 | ⟨h2, _⟩
    · rw [h1]
      exact hs (name, r) (lookupField_mem _ _ _ hl)
    · exact hs p h2

theorem fieldTypesOk_registerField (s : ValidatorState)
    (name ft : String) (required : Bool)
    (hft : ft = "input" ∨ ft = "stripe") (hs : FieldTypesOk s) :
    FieldTypesOk (s.registerField name ft required) := by
  unfold ValidatorState.registerField
  cases hl : lookupField s.fields name with
  | some r => exact hs
  | none =>
    intro p hp
    rcases List.mem_append.mp hp with h1 | h2
    · exact hs p h1
    · simp only [List.mem_singleton] at h2
      rw [h2]
      exact hft

theorem fieldTypesOk_resetAll (s : ValidatorState) (hs : FieldTypesOk s) :
    FieldTypesOk s.resetAll := by
  intro p hp
  rcases List.mem_map.mp hp with ⟨q, hq, hmap⟩
  rw [← hmap]
  exact hs q hq

theorem fieldTypesOk_applyEvent (s : ValidatorState) (e : FormEvent)
    (hs : FieldTypesOk s) : FieldTypesOk (applyEvent s e) := by
  cases e with
  | inputRegister name required =>
    exact fieldTypesOk_registerField s name "input" required (Or.inl rfl) hs
  | inputChange name required value =>
    exact fieldTypesOk_updateField _ _ _ _ _ hs
  | inputBlur name required value =>
    exact fieldTypesOk_updateField _ _ _ _ _ hs
  | checkboxRegister name required =>
    exact fieldTypesOk_registerField s name "input" required (Or.inl rfl) hs
  | checkboxChange name required checked =>
    exact fieldTypesOk_updateField _ _ _ _ _ hs
  | stripeRegister name required =>
    exact fieldTypesOk_registerField s name "stripe" required (Or.inr rfl) hs
  | stripeChange name payload =>
    cases payload with
    | none => exact hs
    | some p =>
      simp only [applyEvent, stripeChange]
      cases hpe : p.error with
      | some e0 => exact fieldTypesOk_updateField _ _ _ _ _ hs
      | none =>
        by_cases hc : p.complete = true
        · rw [if_pos hc]
          exact fieldTypesOk_updateField _ _ _ _ _ hs
        · rw [if_neg hc]
          exact hs
  | stripeBlur name required label =>
    simp only [applyEvent, stripeBlur]
    by_cases hreq : required = true
    · rw [if_pos hreq]
      cases hl : lookupField s.fields name with
      | none => exact hs
      | some r =>
        dsimp only
        by_cases hv : r.value = FieldValue.null
        · rw [if_pos hv]
          exact fieldTypesOk_updateField _ _ _ _ _ hs
        · rw [if_neg hv]
          exact hs
    · rw [if_neg hreq]
      exact hs
  | rawUpdate name v valid error =>
    exact fieldTypesOk_updateField _ _ _ _ _ hs
  | resetAll => exact fieldTypesOk_resetAll s hs

theorem fieldTypesOk_runEvents (evs : List FormEvent) (s : ValidatorState)
    (hs : FieldTypesOk s) : FieldTypesOk (runEvents s evs) := by
  induction evs generalizing s with
  | nil => exact hs
  | cons e rest ih => exact ih _ (fieldTypesOk_applyEvent s e hs)

theorem lookupField_registerField_self (s : ValidatorState)
    (name ft : String) (required : Bool)
    (h : lookupField s.fields name = none) :
    lookupField (s.registerField name ft required).fields name =
      some { fieldType := ft, required := required,
             value := FieldValue.null, valid := none, error := none } := by
  simp only [ValidatorState.registerField, h]
  exact lookupField_append_self s.fields name _ h

/-- C1: the spec-modelled Input binding evaluated at the disputed inputs — a
required input-bound field with no onValidate callback has, after a change
event with the empty value (and after a blur while the value is empty),
valid=false and error="This field is required", and an optional input field
without onValidate has valid=true after a change.  (The repository's own test,
`fields.test.tsx` lines 197-216, instead asserts valid=true next to the
required-field error, contradicting the spec and the rest of the suite.) -/
theorem c1_required_empty_input_invalid :
    lookupField
      (inputChange (inputRegister initialState "input-1" true) "input-1" true
        "").fields "input-1" =
      some { fieldType := "input", required := true,
             value := FieldValue.str "", valid := some false,
             error := some requiredError } ∧
    lookupField
      (inputBlur (inputRegister initialState "input-2" true) "input-2" true
        "").fields "input-2" =
      some { fieldType := "input", required := true,
             value := FieldValue.str "", valid := some false,
             error := some requiredError } ∧
    lookupField
      (inputChange (inputRegister initialState "input-1" false) "input-1"
        false "").fields "input-1" =
      some { fieldType := "input", required := false,
             value := FieldValue.str "", valid := some true,
             error := none } := by
  exact ⟨by decide, by decide, by decide⟩

/-- C2: every payment-element payload carrying an error message makes the
field invalid with the stored error equal to that message with a single
trailing period stripped when present, and otherwise verbatim. -/
theorem c2_stripe_error_message_strips_period (s : ValidatorState)
    (name : String) (p : StripePayload) (e : StripeError) (r : FieldRecord)
    (hp : p.error = some e) (hr : lookupField s.fields name = some r) :
    lookupField (stripeChange s name (some p)).fields name =
      some { r with value := FieldValue.stripe p, valid := some false,
                    error := some (stripTrailingPeriod e.message) } ∧
    (endsWithPeriod e.message = true →
      stripTrailingPeriod e.message = dropLastChar e.message) ∧
    (endsWithPeriod e.message = false →
      stripTrailingPeriod e.message = e.message) ∧
    stripTrailingPeriod "period." = "period" ∧
    stripTrailingPeriod "game over man" = "game over man" := by
  refine ⟨?_, ?_, ?_, by decide, by decide⟩
  · simp only [stripeChange, hp, ValidatorState.updateField, hr]
    exact lookupField_setField_self _ _ _ _ hr
  · intro h
    simp [stripTrailingPeriod, h]
  · intro h
    simp [stripTrailingPeriod, h]

/-- Witness for C2 at the scenario payload `{error:{message:'period.'}}`. -/
theorem c2_witness :
    lookupField
      (stripeChange (stripeRegister initialState "input-1" false) "input-1"
        (some { complete := false,
                error := some { message := "period." } })).fields "input-1" =
      some { fieldType := "stripe", required := false,
             value := FieldValue.stripe
               { complete := false, error := some { message := "period." } },
             valid := some false, error := some "period" } := by
  have h := c2_stripe_error_message_strips_period
    (stripeRegister initialState "input-1" false) "input-1"
    { complete := false, error := some { message := "period." } }
    { message := "period." }
    { fieldType := "stripe", required := false, value := FieldValue.null,
      valid := none, error := none } rfl (by decide)
  exact h.1.trans (by decide)

/-- C3: the submit control is enabled iff every required FieldRecord has
valid=true; setting any required field invalid disables it, and making the
last invalid required field valid enables it, in every ValidatorState. -/
theorem c3_submit_gate_characterization (s : ValidatorState) :
    (submitEnabled s = true ↔
      ∀ p ∈ s.fields, p.2.required = true → p.2.valid = some true) ∧
    (∀ name r v e, lookupField s.fields name = some r → r.required = true →
      submitEnabled (s.updateField name v (some false) e) = false) ∧
    (∀ name r v e, lookupField s.fields name = some r →
      (∀ p ∈ s.fields, p.1 ≠ name → p.2.required = true →
        p.2.valid = some true) →
      submitEnabled (s.updateField name v (some true) e) = true) := by
  have hiff : ∀ (b : Bool) (vv : Option Bool),
      ((!b || (vv == some true)) = true) ↔ (b = true → vv = some true) := by
    intro b vv
    cases b <;> simp [beq_iff_eq]
  refine ⟨?_, ?_, ?_⟩
  · simp only [submitEnabled, List.all_eq_true]
    constructor
    · intro h p hp hb
      exact (hiff _ _).mp (h p hp) hb
    · intro h p hp
      exact (hiff _ _).mpr (h p hp)
  · intro name r v e hr hreq
    simp only [ValidatorState.updateField, hr, submitEnabled]
    apply Bool.eq_false_iff.mpr
    intro hall
    have h2 := List.all_eq_true.mp hall _ (mem_setField_self s.fields name r
      { r with value := v, valid := some false, error := e } hr)
    have h3 := (hiff _ _).mp h2 hreq
    simp at h3
  · intro name r v e hr hother
    simp only [ValidatorState.updateField, hr, submitEnabled]
    apply List.all_eq_true.mpr
    intro p hp
    rcases mem_setField_elim _ _ _ _ hp with h1 | ⟨h2, h3⟩
    · rw [h1]
      apply (hiff _ _).mpr
      intro _
      rfl
    · exact (hiff _ _).mpr (hother p h2 h3)

/-- Witness for C3: invalidating the only required field disables submit. -/
theorem c3_witness :
    submitEnabled
      ((inputRegister initialState "foo" true).updateField "foo"
        (FieldValue.str "bar") (some false) (some "This is an error")) =
      false :=
  (c3_submit_gate_characterization
    (inputRegister initialState "foo" true)).2.1 "foo"
    { fieldType := "input", required := true, value := FieldValue.null,
      valid := none, error := none }
    (FieldValue.str "bar") (some "This is an error") (by decide) rfl

/-- C4: a null payment-element payload, or one that is not complete and
carries no error, leaves the field's state (hence its unknown validity)
unchanged; a complete payload with no error makes the field valid with the
error cleared. -/
theorem c4_stripe_incomplete_unknown_complete_valid (s : ValidatorState)
    (name : String) (r : FieldRecord)
    (hr : lookupField s.fields name = some r) :
    stripeChange s name none = s ∧
    (∀ p : StripePayload, p.error = none → p.complete = false →
      stripeChange s name (some p) = s) ∧
    (∀ p : StripePayload, p.error = none → p.complete = true →
      lookupField (stripeChange s name (some p)).fields name =
        some { r with value := FieldValue.stripe p, valid := some true,
                      error := none }) := by
  refine ⟨rfl, ?_, ?_⟩
  · intro p hpe hpc
    simp [stripeChange, hpe, hpc]
  · intro p hpe hpc
    simp only [stripeChange, hpe, hpc, if_true, ValidatorState.updateField, hr]
    exact lookupField_setField_self _ _ _ _ hr

/-- Witness for C4 at the scenario payload `{complete:true}`. -/
theorem c4_witness :
    lookupField
      (stripeChange (stripeRegister initialState "input-1" false) "input-1"
        (some { complete := true, error := none })).fields "input-1" =
      some { fieldType := "stripe", required := false,
             value := FieldValue.stripe { complete := true, error := none },
             valid := some true, error := none } :=
  (c4_stripe_incomplete_unknown_complete_valid
    (stripeRegister initialState "input-1" false) "input-1"
    { fieldType := "stripe", required := false, value := FieldValue.null,
      valid := none, error := none } (by decide)).2.2
    { complete := true, error := none } rfl rfl

/-- C5: registering a not-yet-present field name inserts a FieldRecord with
value=null, valid=unknown, error=null and the given required flag. -/
theorem c5_register_inserts_default (s : ValidatorState)
    (name ft : String) (required : Bool)
    (h : lookupField s.fields name = none) :
    lookupField (s.registerField name ft required).fields name =
      some { fieldType := ft, required := required,
             value := FieldValue.null, valid := none, error := none } :=
  lookupField_registerField_self s name ft required h

/-- Witness for C5 at the `Field` test's registration of `foo`. -/
theorem c5_witness :
    lookupField (initialState.registerField "foo" "input" false).fields
      "foo" =
      some { fieldType := "input", required := false,
             value := FieldValue.null, valid := none, error := none } :=
  c5_register_inserts_default initialState "foo" "input" false rfl

/-- C6: a required checkbox field is valid iff its boolean value is true;
starting unchecked, the first click yields value=true, valid=true and the
second click yields value=false, valid=false. -/
theorem c6_checkbox_toggle_validity (s : ValidatorState) (name : String)
    (r : FieldRecord) (checked : Bool)
    (hr : lookupField s.fields name = some r) (hreq : r.required = true) :
    lookupField (checkboxChange s name r.required checked).fields name =
      some { r with value := FieldValue.bool checked, valid := some checked,
                    error := none } ∧
    lookupField
      (checkboxChange (checkboxRegister initialState "foo" true) "foo" true
        true).fields "foo" =
      some { fieldType := "input", required := true,
             value := FieldValue.bool true, valid := some true,
             error := none } ∧
    lookupField
      (checkboxChange
        (checkboxChange (checkboxRegister initialState "foo" true) "foo" true
          true) "foo" true false).fields "foo" =
      some { fieldType := "input", required := true,
             value := FieldValue.bool false, valid := some false,
             error := none } := by
  refine ⟨?_, by decide, by decide⟩
  have hv : (!r.required || checked) = checked := by
    rw [hreq]
    simp
  simp only [checkboxChange, hv, ValidatorState.updateField, hr]
  exact lookupField_setField_self _ _ _ _ hr

/-- Witness for C6 at the test's required checkbox `foo`, first click. -/
theorem c6_witness :
    lookupField
      (checkboxChange (checkboxRegister initialState "foo" true) "foo" true
        true).fields "foo" =
      some { fieldType := "input", required := true,
             value := FieldValue.bool true, valid := some true,
             error := none } :=
  (c6_checkbox_toggle_validity (checkboxRegister initialState "foo" true)
    "foo"
    { fieldType := "input", required := true, value := FieldValue.null,
      valid := none, error := none } true (by decide) rfl).2.1

/-- C7 counterexample: the checkbox binding registers its field with
fieldType "input" (not "checkbox") and the payment-element binding with
fieldType "stripe" (not "stripe-element"), as `fields.test.tsx` asserts, so
the claimed enum {input, stripe-element, checkbox} does not hold. -/
theorem c7_counterexample :
    (lookupField (runEvents initialState
        [FormEvent.checkboxRegister "foo" true]).fields "foo").map
      FieldRecord.fieldType = some "input" ∧
    "input" ≠ "checkbox" ∧
    (lookupField (runEvents initialState
        [FormEvent.stripeRegister "pay" false]).fields "pay").map
      FieldRecord.fieldType = some "stripe" ∧
    "stripe" ≠ "stripe-element" := by
  exact ⟨by decide, by decide, by decide, by decide⟩

/-- C7 (amended): in every reachable ValidatorState each FieldRecord's
fieldType is one of {"input", "stripe"}; checkbox-bound fields carry "input"
and payment-element-bound fields carry "stripe". -/
theorem c7_field_types_amended (evs : List FormEvent) :
    (∀ p ∈ (runEvents initialState evs).fields,
      p.2.fieldType = "input" ∨ p.2.fieldType = "stripe") ∧
    (∀ s name req, lookupField s.fields name = none →
      (lookupField (checkboxRegister s name req).fields name).map
        FieldRecord.fieldType = some "input") ∧
    (∀ s name req, lookupField s.fields name = none →
      (lookupField (stripeRegister s name req).fields name).map
        FieldRecord.fieldType = some "stripe") := by
  refine ⟨?_, ?_, ?_⟩
  · exact fieldTypesOk_runEvents evs initialState
      (by intro p hp; simp [initialState] at hp)
  · intro s name req hnone
    rw [checkboxRegister,
      lookupField_registerField_self s name "input" req hnone]
    rfl
  · intro s name req hnone
    rw [stripeRegister,
      lookupField_registerField_self s name "stripe" req hnone]
    rfl

/-- Witness for C7 (amended): registering a checkbox yields an "input"
record. -/
theorem c7_witness :
    (lookupField (checkboxRegister initialState "foo" true).fields "foo").map
      FieldRecord.fieldType = some "input" :=
  (c7_field_types_amended []).2.1 initialState "foo" true rfl

/-- C8: `recordSecurityEvent` returns without recording and without throwing
whenever the container-provided manager is null or lacks a
`recordSecurityEvent` function, and it only invokes the manager's method
(producing a recorded row) when the manager exists and has that method. -/
theorem c8_record_security_event_guard (mgr : Option Manager) (name : String)
    (opts : Option SecOpts) :
    (managerUsable mgr = false →
      recordSecurityEvent mgr name opts = Except.ok CallResult.skipped) ∧
    (∀ row, recordSecurityEvent mgr name opts =
        Except.ok (CallResult.recorded row) → managerUsable mgr = true) := by
  cases mgr with
  | none =>
    refine ⟨fun _ => rfl, ?_⟩
    intro row h
    simp [recordSecurityEvent] at h
  | some m =>
    cases hfn : m.hasRecordSecurityEventFn with
    | false =>
      refine ⟨fun _ => ?_, ?_⟩
      · simp [recordSecurityEvent, hfn]
      · intro row h
        simp [recordSecurityEvent, hfn] at h
    | true =>
      refine ⟨fun hcontra => ?_, fun row h => ?_⟩
      · exfalso
        simp [managerUsable, hfn] at hcontra
      · simp [managerUsable, hfn]

/-- Witness for C8: a null manager is a silent no-op. -/
theorem c8_witness :
    recordSecurityEvent none "accountLogin" none =
      Except.ok CallResult.skipped :=
  (c8_record_security_event_guard none "accountLogin" none).1 rfl

/-- C9: for a registered name, `updateField` yields the previous record with
value, valid and error replaced by the supplied ones, leaves every other
field's record unchanged, and leaves the top-level error unchanged. -/
theorem c9_update_field_frame (s : ValidatorState) (name : String)
    (r : FieldRecord) (v : FieldValue) (valid : Option Bool)
    (error : Option String) (hr : lookupField s.fields name = some r) :
    lookupField (s.updateField name v valid error).fields name =
      some { r with value := v, valid := valid, error := error } ∧
    (∀ m, m ≠ name →
      lookupField (s.updateField name v valid error).fields m =
        lookupField s.fields m) ∧
    (s.updateField name v valid error).error = s.error := by
  refine ⟨?_, ?_, ?_⟩
  · simp only [ValidatorState.updateField, hr]
    exact lookupField_setField_self _ _ _ _ hr
  · intro m hm
    simp only [ValidatorState.updateField, hr]
    exact lookupField_setField_other _ _ _ _ hm
  · simp only [ValidatorState.updateField, hr]

/-- Witness for C9: updating `foo` leaves a sibling field `bar` unchanged. -/
theorem c9_witness :
    lookupField
      (ValidatorState.updateField
        (inputRegister (inputRegister initialState "foo" false) "bar" true)
        "foo" (FieldValue.str "baz") (some true) none).fields "bar" =
      lookupField
        (inputRegister (inputRegister initialState "foo" false) "bar"
          true).fields "bar" :=
  ((c9_update_field_frame
    (inputRegister (inputRegister initialState "foo" false) "bar" true)
    "foo"
    { fieldType := "input", required := false, value := FieldValue.null,
      valid := none, error := none }
    (FieldValue.str "baz") (some true) none (by decide)).2.1) "bar"
    (by decide)

/-- C10: when the manager exists and has the method, `recordSecurityEvent`
dereferences `opts.request.headers` and `opts.request.app.geo.location`
without guarding them: for any non-null opts whose request is absent, or
whose request.app (or request.app.geo) is absent, the call throws a
TypeError instead of returning as a no-op. -/
theorem c10_unguarded_request_deref (m : Manager) (name : String)
    (o : SecOpts) (hm : m.hasRecordSecurityEventFn = true)
    (h : o.request = none ∨
      ∃ r, o.request = some r ∧
        (r.app = none ∨ ∃ a, r.app = some a ∧ a.geo = none)) :
    recordSecurityEvent (some m) name (some o) =
      Except.error JsError.typeError := by
  simp only [recordSecurityEvent, hm]
  rcases h with hnone | ⟨r, hreq, happ⟩
  · simp [hnone]
  · rcases happ with hanone | ⟨a, ha, hg⟩
    · cases hh : r.headers with
      | none => simp [hreq, hh]
      | some hs => simp [hreq, hh, hanone]
    · cases hh : r.headers with
      | none => simp [hreq, hh]
      | some hs => simp [hreq, hh, ha, hg]

/-- Witness for C10: non-null opts with an absent request throws. -/
theorem c10_witness :
    recordSecurityEvent (some { hasRecordSecurityEventFn := true })
      "accountLogin" (some { db := none, account := none, request := none }) =
      Except.error JsError.typeError :=
  c10_unguarded_request_deref { hasRecordSecurityEventFn := true }
    "accountLogin" { db := none, account := none, request := none } rfl
    (Or.inl rfl)
